import Mathlib

/-!
Verification of the go-tavily client library (request construction and
error-classification layer).

Shallow embedding conventions:
* Go `int` is modelled as `Int` (no arithmetic is performed on these values,
  so overflow is irrelevant).
* Go `*bool` option fields are `Option Bool` (`none` = nil pointer).
* Go `any` option fields (only ever set to a `bool` or a `string` by this
  library) are `Option AnyVal` (`none` = nil interface).
* `time.Duration` values are kept in seconds as `Int` (the source only ever
  uses whole-second durations: `60 * time.Second`).
* The HTTP exchange itself is out of scope; an operation call is modelled up
  to the network boundary by `CallStep`: either a fail-fast `APIError`
  produced before any network I/O, or the endpoint and fully-resolved
  payload handed to the transport.
-/

namespace Tavily

/-! ### Constants (client.go) -/

def DefaultBaseURL : String := "https://api.tavily.com"

/-- 60 * time.Second, in seconds. -/
def DefaultTimeout : Int := 60

def DefaultMaxResults : Int := 5

def DefaultSearchDepth : String := "basic"

def DefaultTopic : String := "general"

def DefaultFormat : String := "text"

def ClientSource : String := "go-tavily"

/-! ### APIError and its classification predicates (types.go) -/

structure APIError where
  StatusCode : Int
  Message : String
deriving Repr, DecidableEq

def APIError.ErrorMsg (e : APIError) : String := e.Message

def APIError.IsRateLimit (e : APIError) : Bool :=
  e.StatusCode == 429

def APIError.IsForbidden (e : APIError) : Bool :=
  e.StatusCode == 403 || e.StatusCode == 432 || e.StatusCode == 433

def APIError.IsUnauthorized (e : APIError) : Bool :=
  e.StatusCode == 401

def APIError.IsBadRequest (e : APIError) : Bool :=
  e.StatusCode == 400

/-! ### Typed string constants (types.go) -/

def SearchDepthBasic : String := "basic"

def SearchDepthAdvanced : String := "advanced"

def TopicGeneral : String := "general"

def TopicNews : String := "news"

def FormatText : String := "text"

def FormatMarkdown : String := "markdown"

/-- CrawlCategory is a string type in the source. -/
abbrev CrawlCategory := String

def CategoryDocumentation : CrawlCategory := "Documentation"

def CategoryDeveloper : CrawlCategory := "Developer"

/-- Value stored in a Go `any` option field: the library only ever stores a
bool or a string there. `none` at the field models the nil interface. -/
inductive AnyVal where
  | boolVal (b : Bool)
  | strVal (s : String)
deriving Repr, DecidableEq

/-! ### Options structures (types.go); each field's default value is the Go
zero value of its type. -/

structure SearchOptions where
  SearchDepth : String := ""
  Topic : String := ""
  TimeRange : String := ""
  Days : Int := 0
  MaxResults : Int := 0
  IncludeDomains : List String := []
  ExcludeDomains : List String := []
  IncludeAnswer : Option AnyVal := none
  IncludeRawContent : Option AnyVal := none
  IncludeImages : Option Bool := none
  IncludeImageDescriptions : Option Bool := none
  MaxTokens : Int := 0
  ChunksPerSource : Int := 0
  Country : String := ""
  Timeout : Int := 0
deriving Repr, DecidableEq

structure ExtractOptions where
  IncludeImages : Option Bool := none
  ExtractDepth : String := ""
  Format : String := ""
  Timeout : Int := 0
deriving Repr, DecidableEq

structure CrawlOptions where
  MaxDepth : Int := 0
  MaxBreadth : Int := 0
  Limit : Int := 0
  Instructions : String := ""
  ExtractDepth : String := ""
  SelectPaths : List String := []
  SelectDomains : List String := []
  ExcludePaths : List String := []
  ExcludeDomains : List String := []
  AllowExternal : Option Bool := none
  IncludeImages : Option Bool := none
  Categories : List CrawlCategory := []
  Format : String := ""
  Timeout : Int := 0
deriving Repr, DecidableEq

structure MapOptions where
  MaxDepth : Int := 0
  MaxBreadth : Int := 0
  Limit : Int := 0
  Instructions : String := ""
  SelectPaths : List String := []
  SelectDomains : List String := []
  ExcludePaths : List String := []
  ExcludeDomains : List String := []
  AllowExternal : Option Bool := none
  Categories : List CrawlCategory := []
  Timeout : Int := 0
deriving Repr, DecidableEq

/-! ### Request payload structures (types.go) -/

structure SearchRequest where
  Query : String
  SearchDepth : String
  Topic : String
  TimeRange : String
  Days : Int
  MaxResults : Int
  IncludeDomains : List String
  ExcludeDomains : List String
  IncludeAnswer : Option AnyVal
  IncludeRawContent : Option AnyVal
  IncludeImages : Option Bool
  IncludeImageDescriptions : Option Bool
  MaxTokens : Int
  ChunksPerSource : Int
  Country : String
  Timeout : Int
deriving Repr, DecidableEq

structure ExtractRequest where
  URLs : List String
  IncludeImages : Option Bool
  ExtractDepth : String
  Format : String
  Timeout : Int
deriving Repr, DecidableEq

structure CrawlRequest where
  URL : String
  MaxDepth : Int
  MaxBreadth : Int
  Limit : Int
  Instructions : String
  ExtractDepth : String
  SelectPaths : List String
  SelectDomains : List String
  ExcludePaths : List String
  ExcludeDomains : List String
  AllowExternal : Option Bool
  IncludeImages : Option Bool
  Categories : List CrawlCategory
  Format : String
  Timeout : Int
deriving Repr, DecidableEq

structure MapRequest where
  URL : String
  MaxDepth : Int
  MaxBreadth : Int
  Limit : Int
  Instructions : String
  SelectPaths : List String
  SelectDomains : List String
  ExcludePaths : List String
  ExcludeDomains : List String
  AllowExternal : Option Bool
  Categories : List CrawlCategory
  Timeout : Int
deriving Repr, DecidableEq

/-! ### Default substitution helpers (client.go) -/

def defaultString (value defaultValue : String) : String :=
  if value == "" then defaultValue else value

def defaultInt (value defaultValue : Int) : Int :=
  if value == 0 then defaultValue else value

/-! ### Request construction (the payload-assembly part of each operation,
client.go) -/

def searchRequestOf (query : String) (opts : SearchOptions) : SearchRequest :=
  { Query := query
    SearchDepth := defaultString opts.SearchDepth DefaultSearchDepth
    Topic := defaultString opts.Topic DefaultTopic
    TimeRange := opts.TimeRange
    Days := opts.Days
    MaxResults := defaultInt opts.MaxResults DefaultMaxResults
    IncludeDomains := opts.IncludeDomains
    ExcludeDomains := opts.ExcludeDomains
    IncludeAnswer := opts.IncludeAnswer
    IncludeRawContent := opts.IncludeRawContent
    IncludeImages := opts.IncludeImages
    IncludeImageDescriptions := opts.IncludeImageDescriptions
    MaxTokens := opts.MaxTokens
    ChunksPerSource := opts.ChunksPerSource
    Country := opts.Country
    Timeout := defaultInt opts.Timeout 60 }

def extractRequestOf (urls : List String) (opts : ExtractOptions) : ExtractRequest :=
  { URLs := urls
    IncludeImages := opts.IncludeImages
    ExtractDepth := defaultString opts.ExtractDepth DefaultSearchDepth
    Format := defaultString opts.Format DefaultFormat
    Timeout := defaultInt opts.Timeout 60 }

def crawlRequestOf (url : String) (opts : CrawlOptions) : CrawlRequest :=
  { URL := url
    MaxDepth := defaultInt opts.MaxDepth 1
    MaxBreadth := defaultInt opts.MaxBreadth 20
    Limit := defaultInt opts.Limit 50
    Instructions := opts.Instructions
    ExtractDepth := defaultString opts.ExtractDepth DefaultSearchDepth
    SelectPaths := opts.SelectPaths
    SelectDomains := opts.SelectDomains
    ExcludePaths := opts.ExcludePaths
    ExcludeDomains := opts.ExcludeDomains
    AllowExternal := opts.AllowExternal
    IncludeImages := opts.IncludeImages
    Categories := opts.Categories
    Format := defaultString opts.Format DefaultFormat
    Timeout := defaultInt opts.Timeout 60 }

def mapRequestOf (url : String) (opts : MapOptions) : MapRequest :=
  { URL := url
    MaxDepth := defaultInt opts.MaxDepth 1
    MaxBreadth := defaultInt opts.MaxBreadth 20
    Limit := defaultInt opts.Limit 50
    Instructions := opts.Instructions
    SelectPaths := opts.SelectPaths
    SelectDomains := opts.SelectDomains
    ExcludePaths := opts.ExcludePaths
    ExcludeDomains := opts.ExcludeDomains
    AllowExternal := opts.AllowExternal
    Categories := opts.Categories
    Timeout := defaultInt opts.Timeout 60 }

/-! ### Client construction (client.go: New) -/

/-- The only aspect of the injectable net/http client that the source sets
itself is its timeout (in seconds here). -/
structure HTTPClient where
  Timeout : Int
deriving Repr, DecidableEq

/-- Construction options (client.go: Options). The Go nil pointer for the
injectable transport is `none`. -/
structure ClientOptions where
  BaseURL : String := ""
  HTTPClient : Option HTTPClient := none
  Timeout : Int := 0
deriving Repr, DecidableEq

structure Client where
  baseURL : String
  apiKey : String
  httpClient : HTTPClient
  headers : List (String × String)
deriving Repr, DecidableEq

/-- strings.TrimSuffix: drops one copy of the suffix when present, modelled
over the character list of the string. -/
def trimSuffix (s sfx : String) : String :=
  if sfx.data.isSuffixOf s.data then
    String.mk (s.data.take (s.data.length - sfx.data.length))
  else s

/-- New (client.go). os.Getenv of TAVILY_API_KEY is modelled by the `envKey`
parameter; a Go nil Options pointer is `none`. -/
def New (apiKey0 envKey : String) (opts0 : Option ClientOptions) : Client :=
  let apiKey := if apiKey0 == "" then envKey else apiKey0
  let opts := opts0.getD {}
  let baseURL := if opts.BaseURL == "" then DefaultBaseURL else opts.BaseURL
  let timeout := if opts.Timeout == 0 then DefaultTimeout else opts.Timeout
  let httpClient :=
    match opts.HTTPClient with
    | some hc => hc
    | none => { Timeout := timeout }
  { baseURL := trimSuffix baseURL "/"
    apiKey := apiKey
    httpClient := httpClient
    headers := [("Content-Type", "application/json"),
                ("Authorization", "Bearer " ++ apiKey),
                ("X-Client-Source", ClientSource)] }

/-! ### Operation calls up to the network boundary (client.go) -/

/-- An operation call observed up to the network boundary: either a
fail-fast APIError produced before any network I/O, or the endpoint and
fully-resolved payload handed to the HTTP transport. -/
inductive CallStep (α : Type) where
  | failFast (e : APIError)
  | network (endpoint : String) (payload : α)
deriving Repr, DecidableEq

/-- The APIError doRequest synthesizes when the client's key is empty. -/
def missingAPIKeyError : APIError :=
  ⟨401, "missing API key - provide via parameter or TAVILY_API_KEY environment variable"⟩

/-- The pre-network part of doRequest (client.go): the API-key check, then
the payload is marshalled and handed to the transport. -/
def doRequestGate {α : Type} (c : Client) (endpoint : String) (payload : α) :
    CallStep α :=
  if c.apiKey == "" then .failFast missingAPIKeyError
  else .network endpoint payload

/-- Client.Search (client.go): a nil options pointer is replaced by the
zero options value, the payload is resolved, and doRequest is invoked. -/
def Client.Search (c : Client) (query : String) (opts0 : Option SearchOptions) :
    CallStep SearchRequest :=
  let opts := opts0.getD {}
  doRequestGate c "/search" (searchRequestOf query opts)

/-- Client.Extract (client.go): fails fast on an empty URL list, then
resolves the payload and invokes doRequest. -/
def Client.Extract (c : Client) (urls : List String) (opts0 : Option ExtractOptions) :
    CallStep ExtractRequest :=
  if urls.length == 0 then .failFast ⟨400, "at least one URL is required"⟩
  else
    let opts := opts0.getD {}
    doRequestGate c "/extract" (extractRequestOf urls opts)

/-- Client.Crawl (client.go): fails fast on an empty URL, then resolves the
payload and invokes doRequest. -/
def Client.Crawl (c : Client) (url : String) (opts0 : Option CrawlOptions) :
    CallStep CrawlRequest :=
  if url == "" then .failFast ⟨400, "URL is required"⟩
  else
    let opts := opts0.getD {}
    doRequestGate c "/crawl" (crawlRequestOf url opts)

/-- Client.Map (client.go): fails fast on an empty URL, then resolves the
payload and invokes doRequest. -/
def Client.Map (c : Client) (url : String) (opts0 : Option MapOptions) :
    CallStep MapRequest :=
  if url == "" then .failFast ⟨400, "URL is required"⟩
  else
    let opts := opts0.getD {}
    doRequestGate c "/map" (mapRequestOf url opts)

/-! ### Convenience presets (helpers.go) -/

/-- helpers.go BoolPtr: address of a bool, i.e. an explicit tri-state value. -/
def BoolPtr (b : Bool) : Option Bool := some b

def Client.SearchSimple (c : Client) (query : String) : CallStep SearchRequest :=
  c.Search query none

def Client.SearchWithAnswer (c : Client) (query : String) : CallStep SearchRequest :=
  c.Search query (some { IncludeAnswer := some (.boolVal true), MaxResults := 10 })

def Client.SearchNews (c : Client) (query : String) (days : Int) :
    CallStep SearchRequest :=
  c.Search query (some { Topic := TopicNews, SearchDepth := SearchDepthAdvanced,
                         Days := days, MaxResults := 15,
                         IncludeAnswer := some (.boolVal true) })

def Client.ExtractSimple (c : Client) (url : String) : CallStep ExtractRequest :=
  c.Extract [url] none

def Client.ExtractWithImages (c : Client) (urls : List String) :
    CallStep ExtractRequest :=
  c.Extract urls (some { IncludeImages := BoolPtr true, Format := FormatMarkdown,
                         ExtractDepth := SearchDepthAdvanced })

def Client.CrawlDocumentation (c : Client) (url : String) (maxPages : Int) :
    CallStep CrawlRequest :=
  c.Crawl url (some { MaxDepth := 3, Limit := maxPages,
                      Categories := [CategoryDocumentation, CategoryDeveloper],
                      SelectPaths := ["/docs/*", "/api/*", "/guide/*", "/tutorial/*"],
                      Format := FormatMarkdown, AllowExternal := BoolPtr false })

def Client.MapSite (c : Client) (url : String) : CallStep MapRequest :=
  c.Map url (some { MaxDepth := 2, Limit := 100 })

/-- helpers.go GetSearchContext: the options value it passes to Search. -/
def getSearchContextOpts (maxTokens : Int) : SearchOptions :=
  { SearchDepth := SearchDepthAdvanced, MaxResults := 5,
    IncludeRawContent := some (.strVal FormatText), MaxTokens := maxTokens }

def Client.GetSearchContext (c : Client) (query : String) (maxTokens : Int) :
    CallStep SearchRequest :=
  c.Search query (some (getSearchContextOpts maxTokens))

/-! ### Error propagation (client.go / Go error wrapping) -/

/-- The Go error values an operation can produce: a classified APIError, a
transport failure, a deserialization (contract) failure, or a wrap of an
inner error with a context message, as fmt.Errorf with the %w verb builds. -/
inductive GoError where
  | api (e : APIError)
  | transportErr (msg : String)
  | contractErr (msg : String)
  | wrapped (ctxMsg : String) (inner : GoError)
deriving Repr, DecidableEq

/-- errors.As specialised to the APIError target type: walks the Unwrap
chain that fmt.Errorf %w wrapping builds and yields the first APIError. -/
def errorsAsAPIError : GoError → Option APIError
  | .api e => some e
  | .wrapped _ inner => errorsAsAPIError inner
  | .transportErr _ => none
  | .contractErr _ => none

/-- client.go line 189: fmt.Errorf of search failed with the %w verb. -/
def searchFailedWrap (e : GoError) : GoError := .wrapped "search failed: " e

/-- client.go line 218: fmt.Errorf of extract failed with the %w verb. -/
def extractFailedWrap (e : GoError) : GoError := .wrapped "extract failed: " e

/-- client.go line 257: fmt.Errorf of crawl failed with the %w verb. -/
def crawlFailedWrap (e : GoError) : GoError := .wrapped "crawl failed: " e

/-- client.go line 293: fmt.Errorf of map failed with the %w verb. -/
def mapFailedWrap (e : GoError) : GoError := .wrapped "map failed: " e

/-! ### parseAPIError (client.go) -/

/-- parseAPIError (client.go). The json.Unmarshal of the response body into
the nested detail struct is standard-library behaviour outside this
repository; its outcome is the `detailError` parameter: `none` models an
unmarshal failure (unparseable body), `some d` models success with
detail.error equal to d (the Go zero value "" when the field is absent). -/
def parseAPIError (statusCode : Int) (detailError : Option String) : APIError :=
  let message :=
    match detailError with
    | some d => if d != "" then d else "unknown error"
    | none => "unknown error"
  ⟨statusCode, message⟩

/-! ### JSON serialization of the request payloads (types.go struct tags,
following the encoding/json omitempty rules: an empty string, a zero int,
an empty slice, a nil pointer and a nil interface are omitted; a non-nil
pointer or interface is emitted even when it points at false). -/

inductive JsonVal where
  | jstr (s : String)
  | jint (n : Int)
  | jbool (b : Bool)
  | jarr (xs : List String)
deriving Repr, DecidableEq

/-- Emits the fields whose serialized value is present, in struct order. -/
def emitFields : List (String × Option JsonVal) → List (String × JsonVal)
  | [] => []
  | (_, none) :: ps => emitFields ps
  | (n, some v) :: ps => (n, v) :: emitFields ps

/-- omitempty for a string field: dropped when empty. -/
def omitStr (s : String) : Option JsonVal :=
  if s == "" then none else some (.jstr s)

/-- omitempty for an int field: dropped when zero. -/
def omitInt (n : Int) : Option JsonVal :=
  if n == 0 then none else some (.jint n)

/-- omitempty for a slice field: dropped when it has no elements. -/
def omitList (xs : List String) : Option JsonVal :=
  if xs.length == 0 then none else some (.jarr xs)

/-- omitempty for a pointer-to-bool field: dropped only when the pointer is
nil; an explicit false is emitted. -/
def omitBoolPtr (b : Option Bool) : Option JsonVal :=
  b.map fun x => .jbool x

/-- omitempty for an interface (any) field: dropped only when the interface
is nil; an explicit false or string is emitted. -/
def omitAny (v : Option AnyVal) : Option JsonVal :=
  v.map fun x =>
    match x with
    | .boolVal b => .jbool b
    | .strVal s => .jstr s

/-- The JSON object of a SearchRequest, per the struct tags of types.go. -/
def SearchRequest.jsonFields (r : SearchRequest) : List (String × JsonVal) :=
  emitFields
    [("query", some (.jstr r.Query)),
     ("search_depth", omitStr r.SearchDepth),
     ("topic", omitStr r.Topic),
     ("time_range", omitStr r.TimeRange),
     ("days", omitInt r.Days),
     ("max_results", omitInt r.MaxResults),
     ("include_domains", omitList r.IncludeDomains),
     ("exclude_domains", omitList r.ExcludeDomains),
     ("include_answer", omitAny r.IncludeAnswer),
     ("include_raw_content", omitAny r.IncludeRawContent),
     ("include_images", omitBoolPtr r.IncludeImages),
     ("include_image_descriptions", omitBoolPtr r.IncludeImageDescriptions),
     ("max_tokens", omitInt r.MaxTokens),
     ("chunks_per_source", omitInt r.ChunksPerSource),
     ("country", omitStr r.Country),
     ("timeout", omitInt r.Timeout)]

/-- The JSON object of an ExtractRequest, per the struct tags of types.go. -/
def ExtractRequest.jsonFields (r : ExtractRequest) : List (String × JsonVal) :=
  emitFields
    [("urls", some (.jarr r.URLs)),
     ("include_images", omitBoolPtr r.IncludeImages),
     ("extract_depth", omitStr r.ExtractDepth),
     ("format", omitStr r.Format),
     ("timeout", omitInt r.Timeout)]

/-- The JSON object of a CrawlRequest, per the struct tags of types.go. -/
def CrawlRequest.jsonFields (r : CrawlRequest) : List (String × JsonVal) :=
  emitFields
    [("url", some (.jstr r.URL)),
     ("max_depth", omitInt r.MaxDepth),
     ("max_breadth", omitInt r.MaxBreadth),
     ("limit", omitInt r.Limit),
     ("instructions", omitStr r.Instructions),
     ("extract_depth", omitStr r.ExtractDepth),
     ("select_paths", omitList r.SelectPaths),
     ("select_domains", omitList r.SelectDomains),
     ("exclude_paths", omitList r.ExcludePaths),
     ("exclude_domains", omitList r.ExcludeDomains),
     ("allow_external", omitBoolPtr r.AllowExternal),
     ("include_images", omitBoolPtr r.IncludeImages),
     ("categories", omitList r.Categories),
     ("format", omitStr r.Format),
     ("timeout", omitInt r.Timeout)]

/-- The JSON object of a MapRequest, per the struct tags of types.go. -/
def MapRequest.jsonFields (r : MapRequest) : List (String × JsonVal) :=
  emitFields
    [("url", some (.jstr r.URL)),
     ("max_depth", omitInt r.MaxDepth),
     ("max_breadth", omitInt r.MaxBreadth),
     ("limit", omitInt r.Limit),
     ("instructions", omitStr r.Instructions),
     ("select_paths", omitList r.SelectPaths),
     ("select_domains", omitList r.SelectDomains),
     ("exclude_paths", omitList r.ExcludePaths),
     ("exclude_domains", omitList r.ExcludeDomains),
     ("allow_external", omitBoolPtr r.AllowExternal),
     ("categories", omitList r.Categories),
     ("timeout", omitInt r.Timeout)]

end Tavily

/-- C2: the four APIError classification predicates hold exactly on their
documented status codes (401 unauthorized, 429 rate-limit, 403/432/433
forbidden, 400 bad-request), and on any undocumented code none of the four
holds. -/
theorem Tavily.apiError_classification_exclusive (e : Tavily.APIError) :
    (e.IsUnauthorized = true ↔ e.StatusCode = 401) ∧
    (e.IsRateLimit = true ↔ e.StatusCode = 429) ∧
    (e.IsForbidden = true ↔
      (e.StatusCode = 403 ∨ e.StatusCode = 432 ∨ e.StatusCode = 433)) ∧
    (e.IsBadRequest = true ↔ e.StatusCode = 400) ∧
    (e.StatusCode ∉ ([400, 401, 403, 429, 432, 433] : List Int) →
      e.IsUnauthorized = false ∧ e.IsRateLimit = false ∧
      e.IsForbidden = false ∧ e.IsBadRequest = false) := by
  refine ⟨?_, ?_, ?_, ?_, ?_⟩ <;>
    simp [Tavily.APIError.IsUnauthorized, Tavily.APIError.IsRateLimit,
      Tavily.APIError.IsForbidden, Tavily.APIError.IsBadRequest]
  · tauto
  · intro h400 h401 h403 h429 h432 h433
    simp [h401, h429, h403, h432, h433, h400]

/-- Witness for C2: the classification theorem applied at the undocumented
status code 500, where none of the four predicates holds. -/
theorem Tavily.apiError_classification_witness :
    (Tavily.APIError.mk 500 "oops").IsUnauthorized = false ∧
    (Tavily.APIError.mk 500 "oops").IsRateLimit = false ∧
    (Tavily.APIError.mk 500 "oops").IsForbidden = false ∧
    (Tavily.APIError.mk 500 "oops").IsBadRequest = false :=
  (Tavily.apiError_classification_exclusive ⟨500, "oops"⟩).2.2.2.2 (by decide)

/-- C1: in the Search payload each optional scalar field equal to its zero
value is replaced by its documented default (search_depth "basic", topic
"general", max_results 5, timeout 60), and each non-zero value is passed
through unchanged. -/
theorem Tavily.search_default_substitution (q : String) (opts : Tavily.SearchOptions) :
    ((Tavily.searchRequestOf q opts).Query = q) ∧
    (opts.SearchDepth = "" → (Tavily.searchRequestOf q opts).SearchDepth = "basic") ∧
    (opts.SearchDepth ≠ "" →
      (Tavily.searchRequestOf q opts).SearchDepth = opts.SearchDepth) ∧
    (opts.Topic = "" → (Tavily.searchRequestOf q opts).Topic = "general") ∧
    (opts.Topic ≠ "" → (Tavily.searchRequestOf q opts).Topic = opts.Topic) ∧
    (opts.MaxResults = 0 → (Tavily.searchRequestOf q opts).MaxResults = 5) ∧
    (opts.MaxResults ≠ 0 →
      (Tavily.searchRequestOf q opts).MaxResults = opts.MaxResults) ∧
    (opts.Timeout = 0 → (Tavily.searchRequestOf q opts).Timeout = 60) ∧
    (opts.Timeout ≠ 0 → (Tavily.searchRequestOf q opts).Timeout = opts.Timeout) := by
  refine ⟨rfl, ?_, ?_, ?_, ?_, ?_, ?_, ?_, ?_⟩ <;> intro h <;>
    simp [Tavily.searchRequestOf, Tavily.defaultString, Tavily.defaultInt,
      Tavily.DefaultSearchDepth, Tavily.DefaultTopic, Tavily.DefaultMaxResults, h]

/-- Witness for C1: defaults fire on the zero options value, and explicit
values survive in the payload. -/
theorem Tavily.search_default_substitution_witness :
    (Tavily.searchRequestOf "go" {}).SearchDepth = "basic" ∧
    (Tavily.searchRequestOf "go" {}).Topic = "general" ∧
    (Tavily.searchRequestOf "go" {}).MaxResults = 5 ∧
    (Tavily.searchRequestOf "go" {}).Timeout = 60 ∧
    (Tavily.searchRequestOf "go"
      { SearchDepth := "advanced", Topic := "news", MaxResults := 9,
        Timeout := 7 }).SearchDepth = "advanced" ∧
    (Tavily.searchRequestOf "go"
      { SearchDepth := "advanced", Topic := "news", MaxResults := 9,
        Timeout := 7 }).MaxResults = 9 :=
  ⟨(Tavily.search_default_substitution "go" {}).2.1 rfl,
   (Tavily.search_default_substitution "go" {}).2.2.2.1 rfl,
   (Tavily.search_default_substitution "go" {}).2.2.2.2.2.1 rfl,
   (Tavily.search_default_substitution "go" {}).2.2.2.2.2.2.2.1 rfl,
   (Tavily.search_default_substitution "go"
     { SearchDepth := "advanced", Topic := "news", MaxResults := 9,
       Timeout := 7 }).2.2.1 (by decide),
   (Tavily.search_default_substitution "go"
     { SearchDepth := "advanced", Topic := "news", MaxResults := 9,
       Timeout := 7 }).2.2.2.2.2.2.1 (by decide)⟩

/-- C10: integer default substitution fires only at exactly zero; every
negative caller-supplied value is passed through unchanged into the payload
and raises no validation error. -/
theorem Tavily.negative_int_passthrough (q url : String) (c : Tavily.Client)
    (sopts : Tavily.SearchOptions) (copts : Tavily.CrawlOptions) :
    (∀ v d : Int, v ≠ 0 → Tavily.defaultInt v d = v) ∧
    (sopts.MaxResults < 0 →
      (Tavily.searchRequestOf q sopts).MaxResults = sopts.MaxResults) ∧
    (sopts.Timeout < 0 → (Tavily.searchRequestOf q sopts).Timeout = sopts.Timeout) ∧
    (copts.MaxDepth < 0 → (Tavily.crawlRequestOf url copts).MaxDepth = copts.MaxDepth) ∧
    (copts.MaxBreadth < 0 →
      (Tavily.crawlRequestOf url copts).MaxBreadth = copts.MaxBreadth) ∧
    (copts.Limit < 0 → (Tavily.crawlRequestOf url copts).Limit = copts.Limit) ∧
    (url ≠ "" → c.apiKey ≠ "" →
      c.Crawl url (some copts) =
        Tavily.CallStep.network "/crawl" (Tavily.crawlRequestOf url copts)) := by
  refine ⟨?_, ?_, ?_, ?_, ?_, ?_, ?_⟩
  · intro v d hv
    simp [Tavily.defaultInt, hv]
  · intro h
    have hne : sopts.MaxResults ≠ 0 := by omega
    simp [Tavily.searchRequestOf, Tavily.defaultInt, hne]
  · intro h
    have hne : sopts.Timeout ≠ 0 := by omega
    simp [Tavily.searchRequestOf, Tavily.defaultInt, hne]
  · intro h
    have hne : copts.MaxDepth ≠ 0 := by omega
    simp [Tavily.crawlRequestOf, Tavily.defaultInt, hne]
  · intro h
    have hne : copts.MaxBreadth ≠ 0 := by omega
    simp [Tavily.crawlRequestOf, Tavily.defaultInt, hne]
  · intro h
    have hne : copts.Limit ≠ 0 := by omega
    simp [Tavily.crawlRequestOf, Tavily.defaultInt, hne]
  · intro hurl hkey
    simp [Tavily.Client.Crawl, Tavily.doRequestGate, hurl, hkey]

/-- Witness for C10: MaxResults -1 and Timeout -5 reach the search payload,
MaxDepth -3 reaches the crawl payload, and the crawl call still proceeds to
the network exchange. -/
theorem Tavily.negative_int_passthrough_witness :
    (Tavily.searchRequestOf "q" { MaxResults := -1, Timeout := -5 }).MaxResults = -1 ∧
    (Tavily.searchRequestOf "q" { MaxResults := -1, Timeout := -5 }).Timeout = -5 ∧
    (Tavily.crawlRequestOf "https://e.com" { MaxDepth := -3 }).MaxDepth = -3 ∧
    ((Tavily.New "k" "" none).Crawl "https://e.com" (some { MaxDepth := -3 }) =
      Tavily.CallStep.network "/crawl"
        (Tavily.crawlRequestOf "https://e.com" { MaxDepth := -3 })) :=
  ⟨(Tavily.negative_int_passthrough "q" "https://e.com" (Tavily.New "k" "" none)
      { MaxResults := -1, Timeout := -5 } { MaxDepth := -3 }).2.1 (by decide),
   (Tavily.negative_int_passthrough "q" "https://e.com" (Tavily.New "k" "" none)
      { MaxResults := -1, Timeout := -5 } { MaxDepth := -3 }).2.2.1 (by decide),
   (Tavily.negative_int_passthrough "q" "https://e.com" (Tavily.New "k" "" none)
      { MaxResults := -1, Timeout := -5 } { MaxDepth := -3 }).2.2.2.1 (by decide),
   (Tavily.negative_int_passthrough "q" "https://e.com" (Tavily.New "k" "" none)
      { MaxResults := -1, Timeout := -5 } { MaxDepth := -3 }).2.2.2.2.2.2
      (by decide) (by decide)⟩

/-- C3: Extract with an empty URL list, and Crawl or Map with an empty URL,
fail fast with a bad-request APIError (status 400) before any network I/O;
Search with an empty query does not fail fast and proceeds to the network
exchange. -/
theorem Tavily.required_field_failfast (c : Tavily.Client)
    (sopts : Option Tavily.SearchOptions) (eopts : Option Tavily.ExtractOptions)
    (copts : Option Tavily.CrawlOptions) (mopts : Option Tavily.MapOptions) :
    (c.Extract [] eopts =
      Tavily.CallStep.failFast ⟨400, "at least one URL is required"⟩) ∧
    ((Tavily.APIError.mk 400 "at least one URL is required").IsBadRequest = true) ∧
    (c.Crawl "" copts = Tavily.CallStep.failFast ⟨400, "URL is required"⟩) ∧
    (c.Map "" mopts = Tavily.CallStep.failFast ⟨400, "URL is required"⟩) ∧
    ((Tavily.APIError.mk 400 "URL is required").IsBadRequest = true) ∧
    (c.apiKey ≠ "" →
      c.Search "" sopts =
        Tavily.CallStep.network "/search" (Tavily.searchRequestOf "" (sopts.getD {}))) := by
  refine ⟨rfl, by decide, rfl, rfl, by decide, ?_⟩
  intro hkey
  simp [Tavily.Client.Search, Tavily.doRequestGate, hkey]

/-- Witness for C3: a client with a non-empty key sends an empty-query
search to the network while empty-target extract, crawl and map fail fast. -/
theorem Tavily.required_field_failfast_witness :
    ((Tavily.New "k" "" none).Extract [] none =
      Tavily.CallStep.failFast ⟨400, "at least one URL is required"⟩) ∧
    ((Tavily.New "k" "" none).Search "" none =
      Tavily.CallStep.network "/search" (Tavily.searchRequestOf "" {})) :=
  ⟨(Tavily.required_field_failfast (Tavily.New "k" "" none) none none none none).1,
   (Tavily.required_field_failfast (Tavily.New "k" "" none) none none none none).2.2.2.2.2
     (by decide)⟩

/-- C4 counterexample: on a client with an empty API key, Extract invoked
with an empty URL list returns the bad-request error (status 400), not the
unauthorized error the claim requires for every operation invocation. -/
theorem Tavily.empty_key_not_always_unauthorized :
    (Tavily.New "" "" none).apiKey = "" ∧
    (Tavily.New "" "" none).Extract [] none =
      Tavily.CallStep.failFast ⟨400, "at least one URL is required"⟩ ∧
    (Tavily.APIError.mk 400 "at least one URL is required").IsUnauthorized = false := by
  refine ⟨rfl, rfl, by decide⟩

/-- C4 (amended): on a client whose API key is empty, every operation whose
operation-specific required target passes its own fail-fast check (always
for Search; non-empty URLs for Extract; non-empty URL for Crawl and Map)
returns the missing-API-key APIError, which has status 401 and satisfies
IsUnauthorized, without reaching the network exchange. -/
theorem Tavily.empty_key_unauthorized (c : Tavily.Client) (q url : String)
    (urls : List String) (sopts : Option Tavily.SearchOptions)
    (eopts : Option Tavily.ExtractOptions) (copts : Option Tavily.CrawlOptions)
    (mopts : Option Tavily.MapOptions) (hkey : c.apiKey = "") :
    (c.Search q sopts = Tavily.CallStep.failFast Tavily.missingAPIKeyError) ∧
    (urls ≠ [] →
      c.Extract urls eopts = Tavily.CallStep.failFast Tavily.missingAPIKeyError) ∧
    (url ≠ "" →
      c.Crawl url copts = Tavily.CallStep.failFast Tavily.missingAPIKeyError) ∧
    (url ≠ "" →
      c.Map url mopts = Tavily.CallStep.failFast Tavily.missingAPIKeyError) ∧
    (Tavily.missingAPIKeyError.IsUnauthorized = true) ∧
    (Tavily.missingAPIKeyError.StatusCode = 401) := by
  refine ⟨?_, ?_, ?_, ?_, by decide, by decide⟩
  · simp [Tavily.Client.Search, Tavily.doRequestGate, hkey]
  · intro hurls
    simp [Tavily.Client.Extract, Tavily.doRequestGate, hkey, hurls]
  · intro hurl
    simp [Tavily.Client.Crawl, Tavily.doRequestGate, hkey, hurl]
  · intro hurl
    simp [Tavily.Client.Map, Tavily.doRequestGate, hkey, hurl]

/-- Witness for C4 (amended): the keyless client fails all four operations
with the unauthorized missing-key error on valid targets. -/
theorem Tavily.empty_key_unauthorized_witness :
    ((Tavily.New "" "" none).Search "go" none =
      Tavily.CallStep.failFast Tavily.missingAPIKeyError) ∧
    ((Tavily.New "" "" none).Extract ["https://e.com"] none =
      Tavily.CallStep.failFast Tavily.missingAPIKeyError) ∧
    ((Tavily.New "" "" none).Crawl "https://e.com" none =
      Tavily.CallStep.failFast Tavily.missingAPIKeyError) ∧
    ((Tavily.New "" "" none).Map "https://e.com" none =
      Tavily.CallStep.failFast Tavily.missingAPIKeyError) :=
  ⟨(Tavily.empty_key_unauthorized (Tavily.New "" "" none) "go" "https://e.com"
      ["https://e.com"] none none none none rfl).1,
   (Tavily.empty_key_unauthorized (Tavily.New "" "" none) "go" "https://e.com"
      ["https://e.com"] none none none none rfl).2.1 (by decide),
   (Tavily.empty_key_unauthorized (Tavily.New "" "" none) "go" "https://e.com"
      ["https://e.com"] none none none none rfl).2.2.1 (by decide),
   (Tavily.empty_key_unauthorized (Tavily.New "" "" none) "go" "https://e.com"
      ["https://e.com"] none none none none rfl).2.2.2.1 (by decide)⟩

/-- C5: for a non-200 response, parseAPIError carries the literal HTTP
status code; the message is exactly detail.error when the body parses with
a non-empty detail.error, and the generic "unknown error" fallback (never
empty) when the detail is absent or the body unparseable. -/
theorem Tavily.parseAPIError_message (code : Int) (detail : Option String) :
    ((Tavily.parseAPIError code detail).StatusCode = code) ∧
    (∀ d : String, detail = some d → d ≠ "" →
      (Tavily.parseAPIError code detail).Message = d) ∧
    (detail = none → (Tavily.parseAPIError code detail).Message = "unknown error") ∧
    (detail = some "" → (Tavily.parseAPIError code detail).Message = "unknown error") ∧
    ((Tavily.parseAPIError code detail).Message ≠ "") := by
  refine ⟨rfl, ?_, ?_, ?_, ?_⟩
  · intro d hd hne
    simp [Tavily.parseAPIError, hd, hne]
  · intro hd
    simp [Tavily.parseAPIError, hd]
  · intro hd
    simp [Tavily.parseAPIError, hd]
  · rcases detail with _ | d
    · simp [Tavily.parseAPIError]
    · by_cases hne : d = ""
      · simp [Tavily.parseAPIError, hne]
      · simp [Tavily.parseAPIError, hne]

/-- Witness for C5: a parsed detail message is used verbatim at status 401,
and an unparseable body falls back to the generic message at status 500. -/
theorem Tavily.parseAPIError_message_witness :
    (Tavily.parseAPIError 401 (some "Invalid API key provided")).StatusCode = 401 ∧
    (Tavily.parseAPIError 401 (some "Invalid API key provided")).Message =
      "Invalid API key provided" ∧
    (Tavily.parseAPIError 500 none).Message = "unknown error" ∧
    (Tavily.parseAPIError 500 (some "")).Message = "unknown error" :=
  ⟨(Tavily.parseAPIError_message 401 (some "Invalid API key provided")).1,
   (Tavily.parseAPIError_message 401 (some "Invalid API key provided")).2.1
     "Invalid API key provided" rfl (by decide),
   (Tavily.parseAPIError_message 500 none).2.2.1 rfl,
   (Tavily.parseAPIError_message 500 (some "")).2.2.2.1 rfl⟩

/-- C6: wrapping an operation's error with its operation-name context, as
fmt.Errorf with the %w verb does in Search, Extract, Crawl and Map, is
classification-preserving: errors.As recovers exactly the same APIError
from the wrapped error as from the original, for every inner error kind. -/
theorem Tavily.wrap_preserves_apiError (e : Tavily.GoError) (a : Tavily.APIError)
    (msg : String) :
    (Tavily.errorsAsAPIError (Tavily.searchFailedWrap e) = Tavily.errorsAsAPIError e) ∧
    (Tavily.errorsAsAPIError (Tavily.extractFailedWrap e) = Tavily.errorsAsAPIError e) ∧
    (Tavily.errorsAsAPIError (Tavily.crawlFailedWrap e) = Tavily.errorsAsAPIError e) ∧
    (Tavily.errorsAsAPIError (Tavily.mapFailedWrap e) = Tavily.errorsAsAPIError e) ∧
    (Tavily.errorsAsAPIError (Tavily.searchFailedWrap (.api a)) = some a) ∧
    (Tavily.errorsAsAPIError (Tavily.searchFailedWrap (.transportErr msg)) = none) ∧
    (Tavily.errorsAsAPIError (Tavily.searchFailedWrap (.contractErr msg)) = none) := by
  refine ⟨rfl, rfl, rfl, rfl, rfl, rfl, rfl⟩

/-- C8: every convenience preset is pure delegation: it invokes the core
operation with exactly its documented fixed option fields, so it produces
the identical call (same fail-fast behaviour, same endpoint, same payload). -/
theorem Tavily.presets_delegate (c : Tavily.Client) (q url : String)
    (urls : List String) (days maxPages maxTokens : Int) :
    (c.SearchNews q days =
      c.Search q (some { Topic := "news", SearchDepth := "advanced", Days := days,
                         MaxResults := 15,
                         IncludeAnswer := some (.boolVal true) })) ∧
    (Tavily.searchRequestOf q
        { Topic := "news", SearchDepth := "advanced", Days := days, MaxResults := 15,
          IncludeAnswer := some (.boolVal true) } =
      { Query := q, SearchDepth := "advanced", Topic := "news", TimeRange := "",
        Days := days, MaxResults := 15, IncludeDomains := [], ExcludeDomains := [],
        IncludeAnswer := some (.boolVal true), IncludeRawContent := none,
        IncludeImages := none, IncludeImageDescriptions := none, MaxTokens := 0,
        ChunksPerSource := 0, Country := "", Timeout := 60 }) ∧
    (c.SearchSimple q = c.Search q none) ∧
    (c.SearchWithAnswer q =
      c.Search q (some { IncludeAnswer := some (.boolVal true), MaxResults := 10 })) ∧
    (c.ExtractSimple url = c.Extract [url] none) ∧
    (c.ExtractWithImages urls =
      c.Extract urls (some { IncludeImages := some true, Format := "markdown",
                             ExtractDepth := "advanced" })) ∧
    (c.CrawlDocumentation url maxPages =
      c.Crawl url (some { MaxDepth := 3, Limit := maxPages,
                          Categories := ["Documentation", "Developer"],
                          SelectPaths := ["/docs/*", "/api/*", "/guide/*", "/tutorial/*"],
                          Format := "markdown", AllowExternal := some false })) ∧
    (c.MapSite url = c.Map url (some { MaxDepth := 2, Limit := 100 })) ∧
    (c.GetSearchContext q maxTokens =
      c.Search q (some { SearchDepth := "advanced", MaxResults := 5,
                         IncludeRawContent := some (.strVal "text"),
                         MaxTokens := maxTokens })) := by
  refine ⟨rfl, ?_, rfl, rfl, rfl, rfl, rfl, rfl, rfl⟩
  simp [Tavily.searchRequestOf, Tavily.defaultString, Tavily.defaultInt,
    Tavily.DefaultSearchDepth, Tavily.DefaultTopic, Tavily.DefaultMaxResults]

/-- C9: client construction defaults the base URL to the documented service
URL when unset, strips a trailing slash from a supplied base URL, defaults
a zero timeout to 60 seconds for the client it constructs, and installs
exactly the Content-Type, bearer Authorization and X-Client-Source headers. -/
theorem Tavily.new_client_config (k env : String) (opts : Tavily.ClientOptions) :
    ((Tavily.New k env (some opts)).apiKey = (if k = "" then env else k)) ∧
    (opts.BaseURL = "" →
      (Tavily.New k env (some opts)).baseURL = "https://api.tavily.com") ∧
    (opts.BaseURL ≠ "" →
      (Tavily.New k env (some opts)).baseURL = Tavily.trimSuffix opts.BaseURL "/") ∧
    (opts.Timeout = 0 → opts.HTTPClient = none →
      (Tavily.New k env (some opts)).httpClient.Timeout = 60) ∧
    (opts.Timeout ≠ 0 → opts.HTTPClient = none →
      (Tavily.New k env (some opts)).httpClient.Timeout = opts.Timeout) ∧
    ((Tavily.New k env (some opts)).headers =
      [("Content-Type", "application/json"),
       ("Authorization", "Bearer " ++ (if k = "" then env else k)),
       ("X-Client-Source", "go-tavily")]) := by
  refine ⟨?_, ?_, ?_, ?_, ?_, ?_⟩
  · by_cases hk : k = "" <;> simp [Tavily.New, hk]
  · intro h
    simp [Tavily.New, h, Tavily.DefaultBaseURL, Tavily.trimSuffix]
    decide
  · intro h
    simp [Tavily.New, h]
  · intro ht hc
    simp [Tavily.New, ht, hc, Tavily.DefaultTimeout]
  · intro ht hc
    simp [Tavily.New, ht, hc]
  · by_cases hk : k = "" <;> simp [Tavily.New, hk, Tavily.ClientSource]

/-- Witness for C9: concrete constructions showing the default base URL,
trailing-slash stripping, the 60-second default timeout, and the header
set with the bearer key. -/
theorem Tavily.new_client_config_witness :
    ((Tavily.New "tvly-k" "" (some {})).baseURL = "https://api.tavily.com") ∧
    ((Tavily.New "tvly-k" "" (some { BaseURL := "https://example.com/" })).baseURL =
      Tavily.trimSuffix "https://example.com/" "/") ∧
    (Tavily.trimSuffix "https://example.com/" "/" = "https://example.com") ∧
    ((Tavily.New "tvly-k" "" (some {})).httpClient.Timeout = 60) ∧
    ((Tavily.New "tvly-k" "" (some {})).headers =
      [("Content-Type", "application/json"),
       ("Authorization", "Bearer tvly-k"),
       ("X-Client-Source", "go-tavily")]) :=
  ⟨(Tavily.new_client_config "tvly-k" "" {}).2.1 rfl,
   (Tavily.new_client_config "tvly-k" "" { BaseURL := "https://example.com/" }).2.2.1
     (by decide),
   by decide,
   (Tavily.new_client_config "tvly-k" "" {}).2.2.2.1 rfl rfl,
   by
     have h := (Tavily.new_client_config "tvly-k" "" {}).2.2.2.2.2
     simpa using h⟩

/-! Helper lemmas about field lookup in an emitted JSON object. -/

theorem Tavily.lookup_emitFields_skip (k n : String) (o : Option Tavily.JsonVal)
    (ps : List (String × Option Tavily.JsonVal)) (h : (k == n) = false) :
    List.lookup k (Tavily.emitFields ((n, o) :: ps)) =
      List.lookup k (Tavily.emitFields ps) := by
  cases o <;> simp [Tavily.emitFields, List.lookup, h]

theorem Tavily.lookup_emitFields_here (n : String) (v : Tavily.JsonVal)
    (ps : List (String × Option Tavily.JsonVal)) :
    List.lookup n (Tavily.emitFields ((n, some v) :: ps)) = some v := by
  simp [Tavily.emitFields, List.lookup]

theorem Tavily.lookup_emitFields_drop (k n : String)
    (ps : List (String × Option Tavily.JsonVal)) :
    List.lookup k (Tavily.emitFields ((n, none) :: ps)) =
      List.lookup k (Tavily.emitFields ps) := rfl

theorem Tavily.lookup_emitFields_nil (k : String) :
    List.lookup k (Tavily.emitFields []) = none := rfl

/-- C7: in every operation's serialized payload, an optional boolean field
that is absent is dropped from the JSON object (its key does not occur),
while an explicitly supplied boolean, false included, is emitted under its
key; this holds for include_images, include_image_descriptions,
allow_external and the any-typed include_answer, so omission and explicit
false stay distinguishable. -/
theorem Tavily.omitted_vs_explicit_false (r : Tavily.SearchRequest)
    (e : Tavily.ExtractRequest) (cr : Tavily.CrawlRequest) (m : Tavily.MapRequest) :
    (r.IncludeAnswer = none → List.lookup "include_answer" r.jsonFields = none) ∧
    (∀ b, r.IncludeAnswer = some (.boolVal b) →
      List.lookup "include_answer" r.jsonFields = some (.jbool b)) ∧
    (r.IncludeImages = none → List.lookup "include_images" r.jsonFields = none) ∧
    (∀ b, r.IncludeImages = some b →
      List.lookup "include_images" r.jsonFields = some (.jbool b)) ∧
    (r.IncludeImageDescriptions = none →
      List.lookup "include_image_descriptions" r.jsonFields = none) ∧
    (∀ b, r.IncludeImageDescriptions = some b →
      List.lookup "include_image_descriptions" r.jsonFields = some (.jbool b)) ∧
    (e.IncludeImages = none → List.lookup "include_images" e.jsonFields = none) ∧
    (∀ b, e.IncludeImages = some b →
      List.lookup "include_images" e.jsonFields = some (.jbool b)) ∧
    (cr.AllowExternal = none → List.lookup "allow_external" cr.jsonFields = none) ∧
    (∀ b, cr.AllowExternal = some b →
      List.lookup "allow_external" cr.jsonFields = some (.jbool b)) ∧
    (cr.IncludeImages = none → List.lookup "include_images" cr.jsonFields = none) ∧
    (∀ b, cr.IncludeImages = some b →
      List.lookup "include_images" cr.jsonFields = some (.jbool b)) ∧
    (m.AllowExternal = none → List.lookup "allow_external" m.jsonFields = none) ∧
    (∀ b, m.AllowExternal = some b →
      List.lookup "allow_external" m.jsonFields = some (.jbool b)) := by
  refine ⟨?_, ?_, ?_, ?_, ?_, ?_, ?_, ?_, ?_, ?_, ?_, ?_, ?_, ?_⟩ <;>
    first
    | (intro h
       simp [Tavily.SearchRequest.jsonFields, Tavily.ExtractRequest.jsonFields,
         Tavily.CrawlRequest.jsonFields, Tavily.MapRequest.jsonFields,
         Tavily.lookup_emitFields_skip, Tavily.lookup_emitFields_here,
         Tavily.lookup_emitFields_drop, Tavily.lookup_emitFields_nil,
         Tavily.omitBoolPtr, Tavily.omitAny, h])
    | (intro b h
       simp [Tavily.SearchRequest.jsonFields, Tavily.ExtractRequest.jsonFields,
         Tavily.CrawlRequest.jsonFields, Tavily.MapRequest.jsonFields,
         Tavily.lookup_emitFields_skip, Tavily.lookup_emitFields_here,
         Tavily.lookup_emitFields_drop, Tavily.lookup_emitFields_nil,
         Tavily.omitBoolPtr, Tavily.omitAny, h])
